import Mathlib

/-!
Shallow embedding of the PaperDeck client core: the session manager
(frontend/src/auth/AuthProvider.tsx, which exists in two divergent
variants in the repository), the review-queue controller
(frontend/src/pages/HomePage.tsx), the registration flow
(frontend/src/pages/RegisterPage.tsx) and the admin crawl submission
(frontend/src/pages/AdminPage.tsx).  Collaborator (HTTP) outcomes are
passed in as explicit values; browser storage and React state are
explicit fields of a state record; network requests issued by the
client are collected in an append-only log.
-/

namespace PaperDeck

/-- A paper record as projected by the client (`Paper` of the generated
API types, used by HomePage and the liked-papers page). -/
structure Paper where
  id : Nat
  conferenceName : String
  year : Nat
  title : String
  url : Option String
  authors : Option String
  abstractText : Option String
deriving DecidableEq, Repr

/-- `PaperStatus` enumeration of the generated API (`Read` / `Liked`). -/
inductive PaperStatus where
  | Read
  | Liked
deriving DecidableEq, Repr

/-- `User` record of the generated API (`userId`, `username`). -/
structure User where
  userId : Nat
  username : String
deriving DecidableEq, Repr

/-- `AuthToken` record returned by the login endpoint. -/
structure AuthToken where
  token : String
  tokenType : String
deriving DecidableEq, Repr

/-- Login form payload (`LoginPayload`). -/
structure LoginPayload where
  username : String
  password : String
deriving DecidableEq, Repr

/-- An error thrown by a generated API call: either a `ResponseError`
carrying the HTTP status, the response body text and a message, or a
plain JavaScript `Error` carrying only a message. -/
inductive JsError where
  | responseError (status : Nat) (body : String) (message : String)
  | plainError (message : String)
deriving DecidableEq, Repr

/-- `error instanceof ResponseError && error.response.status === s`. -/
def JsError.isResponseStatus : JsError → Nat → Bool
  | .responseError status _ _, s => status = s
  | .plainError _, _ => false

/-! ## HomePage (frontend/src/pages/HomePage.tsx) -/

/-- The `retry` predicate of the `['nextPaper']` useQuery: a 404
`ResponseError` is never retried (it means "no unclassified papers
left"); any other error is retried while `failureCount < 3`. -/
def nextPaperRetry (failureCount : Nat) (error : JsError) : Bool :=
  if error.isResponseStatus 404 then false
  else failureCount < 3

/-- Snapshot of the `['nextPaper']` useQuery result as HomePage reads
it: `data`, `isLoading`, `isError`, `error`. -/
structure NextPaperQuery where
  data : Option Paper
  isLoading : Bool
  isError : Bool
  error : Option JsError
deriving DecidableEq, Repr

/-- What HomePage renders (the distinct top-level branches of its
render logic). -/
inductive HomeRender where
  | loading
  | allDone
  | errorBanner (message : String)
  | noPaper
  | paperCard (paper : Paper) (isMutating : Bool) (isCurrentLiked : Bool)
deriving DecidableEq, Repr

/-- HomePage render logic, in source order: loading, then the 404
"all done" branch, then the generic error banner, then the missing-data
fallback, then the paper card. -/
def renderHome (q : NextPaperQuery) (isMutating isCurrentLiked : Bool) :
    HomeRender :=
  if q.isLoading then .loading
  else if (match q.error with
           | some e => e.isResponseStatus 404
           | none => false) then .allDone
  else if q.isError then
    .errorBanner (match q.error with
                  | some (.responseError _ _ message) => message
                  | some (.plainError message) => message
                  | none => "")
  else match q.data with
    | none => .noPaper
    | some p => .paperCard p isMutating isCurrentLiked

/-- The variables object passed to `mutate` in HomePage
(`{ paperId, status }`). -/
structure MutationVars where
  paperId : Nat
  status : PaperStatus
deriving DecidableEq, Repr

/-- A `POST /api/papers/:id/status` request issued to the network
collaborator by the mutation function (`papersApi.setPaperStatus`). -/
structure StatusRequest where
  paperId : Nat
  status : PaperStatus
deriving DecidableEq, Repr

/-- The useMutation lifecycle status (`idle`, `pending`,
`success`, `error`).  `success` realises the spec's `Settled` state,
`pending` its `Submitting` state. -/
inductive DecisionState where
  | idle
  | pending
  | success
  | error
deriving DecidableEq, Repr

/-- React Query cache validity, one flag per query key used by the
app: `['nextPaper']` and `['likedPapers']`; `invalidateQueries` sets
the corresponding flag to `false`. -/
structure QueryCaches where
  nextPaperValid : Bool
  likedPapersValid : Bool
deriving DecidableEq, Repr

/-- HomePage client state: the current candidate paper (`data` of the
next-paper query), the local `isCurrentLiked` flag, the cache flags,
the mutation status, and the log of requests issued to the
paper-status network collaborator. -/
structure HomeState where
  paper : Option Paper
  isCurrentLiked : Bool
  caches : QueryCaches
  decision : DecisionState
  requests : List StatusRequest
deriving DecidableEq, Repr

/-- `mutate(variables)`: the mutation function unconditionally calls
`papersApi.setPaperStatus({ paperId: v.paperId, statusPayload:
{ status: v.status } })` — the request is issued to the network
collaborator with whatever `paperId` was supplied, and the mutation
enters its pending state.  There is no stale-id guard. -/
def mutate (s : HomeState) (v : MutationVars) : HomeState :=
  { s with
    requests := s.requests ++ [⟨v.paperId, v.status⟩]
    decision := .pending }

/-- `handleRate(status)`: if a current paper exists, submit its id with
the given status, and for a `Liked` press set the local liked flag
immediately (in the same tick, before the network call settles);
with no current paper, do nothing. -/
def handleRate (s : HomeState) (status : PaperStatus) : HomeState :=
  match s.paper with
  | none => s
  | some paper =>
      let s1 := mutate s ⟨paper.id, status⟩
      if status = PaperStatus.Liked then
        { s1 with isCurrentLiked := true }
      else s1

/-- The mutation's `onSuccess` callback plus the settling of the
mutation status: a `Read` decision invalidates `['nextPaper']`, a
`Liked` decision invalidates `['likedPapers']`, and the mutation
status becomes `success` (the spec's `Settled`). -/
def onSuccess (s : HomeState) (v : MutationVars) : HomeState :=
  let s1 :=
    if v.status = PaperStatus.Read then
      { s with caches := { s.caches with nextPaperValid := false } }
    else s
  let s2 :=
    if v.status = PaperStatus.Liked then
      { s1 with caches := { s1.caches with likedPapersValid := false } }
    else s1
  { s2 with decision := .success }

/-- The mutation's `onError` callback plus the settling of the
mutation status: a failed `Liked` decision rolls the local liked flag
back; the mutation status becomes `error`. -/
def onError (s : HomeState) (v : MutationVars) : HomeState :=
  let s1 :=
    if v.status = PaperStatus.Liked then
      { s with isCurrentLiked := false }
    else s
  { s1 with decision := .error }

/-- The `useEffect` keyed on `paper?.id`: when a (re)loaded query
result changes the candidate, the local liked flag is reset. -/
def paperLoaded (s : HomeState) (p : Option Paper) : HomeState :=
  { s with paper := p, isCurrentLiked := false }

/-- The events that drive HomePage state between renders. -/
inductive HomeEvent where
  | rate (status : PaperStatus)
  | settleSuccess (v : MutationVars)
  | settleError (v : MutationVars)
  | load (p : Option Paper)
deriving DecidableEq, Repr

/-- One HomePage state transition per event. -/
def homeStep (s : HomeState) : HomeEvent → HomeState
  | .rate status => handleRate s status
  | .settleSuccess v => onSuccess s v
  | .settleError v => onError s v
  | .load p => paperLoaded s p

/-! ## Server-side next-paper selection.

Modelled from the spec: the Papers API collaborator
(`getNextUnclassifiedPaper() -> Paper | NotFoundError`,
`setPaperStatus(paperId, status)`) lives in the backend, which is not
part of the reviewed sources beyond its SQL migration; per the spec the
next paper is one the user has not yet classified, and a status
submission records a per-user status for that paper. -/

/-- One backend row for the requesting user: the paper together with
the user's recorded status for it, if any. -/
structure ServerPaper where
  paper : Paper
  status : Option PaperStatus
deriving DecidableEq, Repr

/-- Modelled from the spec: `getNextUnclassifiedPaper` returns some
paper the user has not classified yet, or nothing when none remain. -/
def getNextPaper (db : List ServerPaper) : Option Paper :=
  (db.find? (fun r => r.status = none)).map (fun r => r.paper)

/-- Modelled from the spec: `setPaperStatus` records the given status
for every row of that paper id. -/
def setPaperStatus (db : List ServerPaper) (paperId : Nat)
    (status : PaperStatus) : List ServerPaper :=
  db.map (fun r =>
    if r.paper.id = paperId then { r with status := some status } else r)

/-! ## AuthProvider (frontend/src/auth/AuthProvider.tsx, two variants) -/

/-- Session state visible through the auth context plus the
`localStorage` slot under `JWT_STORAGE_KEY`. -/
structure AuthState where
  isAuthenticated : Bool
  user : Option User
  isLoading : Bool
  storedToken : Option String
deriving DecidableEq, Repr

/-- The error message thrown by both login variants on a 401
(`"ユーザー名またはパスワードが正しくありません"`). -/
def invalidCredentialsMessage : String :=
  "ユーザー名またはパスワードが正しくありません"

/-- `logout()`: removes the stored token and resets the
authenticated flag and user, unconditionally and without any
network call. -/
def logout (s : AuthState) : AuthState :=
  { s with storedToken := none, isAuthenticated := false, user := none }

/-- The shared catch logic of both login variants: a 401
`ResponseError` becomes a plain `Error` with the fixed
invalid-credentials message; every other error is rethrown as is. -/
def loginCatch (e : JsError) : JsError :=
  if e.isResponseStatus 401 then .plainError invalidCredentialsMessage
  else e

/-- `login` of the getMe-lookup AuthProvider variant: obtain a token
from the auth collaborator, store it, call `/api/me` for the real
user record, then set the authenticated state; on any failure run
`logout()` (clearing a token that may have been stored) and rethrow
through the 401 translation.  The collaborator outcomes of the two
network calls are passed in as `loginResult` and `getMeResult`. -/
def loginGetMe (s : AuthState) (_payload : LoginPayload)
    (loginResult : Except JsError AuthToken)
    (getMeResult : Except JsError User) :
    AuthState × Except JsError Unit :=
  match loginResult with
  | .error e => (logout s, .error (loginCatch e))
  | .ok tokenData =>
      let s1 := { s with storedToken := some tokenData.token }
      match getMeResult with
      | .error e => (logout s1, .error (loginCatch e))
      | .ok userInfo =>
          ({ s1 with isAuthenticated := true, user := some userInfo },
           .ok ())

/-- `saveAuthData` of the dummy-user AuthProvider variant: store the
token and set the authenticated state with the given user record. -/
def saveAuthData (s : AuthState) (token : AuthToken) (userInfo : User) :
    AuthState :=
  { s with
    storedToken := some token.token
    isAuthenticated := true
    user := some userInfo }

/-- `login` of the dummy-user AuthProvider variant: obtain a token,
then — instead of any identity lookup — store it together with a
hard-coded placeholder user `{ userId: 1, username: payload.username }`
(the code's own TODO notes that `/api/me` or JWT decoding should be
used).  On failure nothing is cleared; a 401 is translated to the
invalid-credentials message. -/
def loginDummy (s : AuthState) (payload : LoginPayload)
    (loginResult : Except JsError AuthToken) :
    AuthState × Except JsError Unit :=
  match loginResult with
  | .error e => (s, .error (loginCatch e))
  | .ok tokenData =>
      let dummyUser : User := { userId := 1, username := payload.username }
      (saveAuthData s tokenData dummyUser, .ok ())

/-- `register` (identical in both variants): forwards to the auth
collaborator and returns its result; it touches neither the stored
token nor the session state. -/
def registerProvider (s : AuthState)
    (registerResult : Except JsError User) :
    AuthState × Except JsError User :=
  (s, registerResult)

/-- `checkAuthStatus` of the getMe-lookup variant (the startup
useEffect): with a stored token, validate it by calling `/api/me` —
on success become authenticated with the returned user, on failure
`logout()`; with no stored token do nothing; in every case finish
with `isLoading := false`. -/
def checkAuthStatus (s : AuthState)
    (getMeResult : Except JsError User) : AuthState :=
  match s.storedToken with
  | some _ =>
      let s1 :=
        match getMeResult with
        | .ok userInfo =>
            { s with isAuthenticated := true, user := some userInfo }
        | .error _ => logout s
      { s1 with isLoading := false }
  | none => { s with isLoading := false }

/-- The startup useEffect of the dummy-user variant: with a stored
token it becomes authenticated immediately with a hard-coded
placeholder user — no collaborator call and no validation; then
`isLoading := false` either way. -/
def startupDummy (s : AuthState) : AuthState :=
  match s.storedToken with
  | some _ =>
      { s with
        isAuthenticated := true
        user := some { userId := 1, username := "ログインユーザー" }
        isLoading := false }
  | none => { s with isLoading := false }

/-- The session operations of either AuthProvider variant, each
carrying the collaborator outcomes its network calls would produce. -/
inductive AuthEvent where
  | startupGetMe (getMeResult : Except JsError User)
  | startupOfDummy
  | loginViaGetMe (payload : LoginPayload)
      (loginResult : Except JsError AuthToken)
      (getMeResult : Except JsError User)
  | loginViaDummy (payload : LoginPayload)
      (loginResult : Except JsError AuthToken)
  | registerCall (registerResult : Except JsError User)
  | logoutCall

/-- One session transition per operation (the state component; thrown
errors are dropped here). -/
def authStep (s : AuthState) : AuthEvent → AuthState
  | .startupGetMe getMeResult => checkAuthStatus s getMeResult
  | .startupOfDummy => startupDummy s
  | .loginViaGetMe payload loginResult getMeResult =>
      (loginGetMe s payload loginResult getMeResult).1
  | .loginViaDummy payload loginResult =>
      (loginDummy s payload loginResult).1
  | .registerCall registerResult => (registerProvider s registerResult).1
  | .logoutCall => logout s

/-- Initial AuthProvider state: `useState(false)`, `useState(null)`,
`useState(true)`; the storage slot may hold a token left over from an
earlier process. -/
def initialAuthState (storedToken : Option String) : AuthState :=
  { isAuthenticated := false
    user := none
    isLoading := true
    storedToken := storedToken }

/-- Run a sequence of session operations from the initial state. -/
def runAuth (storedToken : Option String) (events : List AuthEvent) :
    AuthState :=
  events.foldl authStep (initialAuthState storedToken)

/-! ## RegisterPage (frontend/src/pages/RegisterPage.tsx) -/

/-- The fixed messages of RegisterPage's error handling. -/
def usernameTakenMessage : String :=
  "このユーザー名は既に使用されています。"

/-- Fallback when a 400 response has no readable body. -/
def validationFallbackMessage : String :=
  "入力内容が正しくありません。"

/-- The message of the (intended) auto-login-failed branch. -/
def autoLoginFailedMessage : String :=
  "登録には成功しましたが、自動ログインに失敗しました。ログインページから手動でログインしてください。"

/-- RegisterPage's catch block: for a `ResponseError`, dispatch on the
HTTP status — 409 username taken, 400 server-provided body verbatim
(with a fallback when empty), 401 the auto-login-failed message,
otherwise the error's own message (or a generic one naming the code);
for a plain `Error`, its message. -/
def registerErrorMessage (e : JsError) : String :=
  match e with
  | .responseError status body message =>
      if status = 409 then usernameTakenMessage
      else if status = 400 then
        (if body = "" then validationFallbackMessage else body)
      else if status = 401 then autoLoginFailedMessage
      else if message = "" then
        "エラーが発生しました (コード: " ++ toString status ++ ")。"
      else message
  | .plainError message => message

/-- The user-visible outcome of a RegisterPage submission. -/
inductive RegisterOutcome where
  | navigatedHome
  | showError (message : String)
deriving DecidableEq, Repr

/-- RegisterPage's `handleSubmit` composed over the getMe-lookup login
variant: run `register`; on success run `login` with the same
credentials and navigate home if it succeeds; any thrown error is
mapped through the catch block above.  Collaborator outcomes of the
three possible network calls are explicit arguments. -/
def registerPageSubmit (s : AuthState) (payload : LoginPayload)
    (registerResult : Except JsError User)
    (loginResult : Except JsError AuthToken)
    (getMeResult : Except JsError User) :
    AuthState × RegisterOutcome :=
  match registerProvider s registerResult with
  | (s0, .error e) => (s0, .showError (registerErrorMessage e))
  | (s0, .ok _) =>
      match loginGetMe s0 payload loginResult getMeResult with
      | (s1, .ok _) => (s1, .navigatedHome)
      | (s1, .error e) => (s1, .showError (registerErrorMessage e))

/-! ## AdminPage (frontend/src/pages/AdminPage.tsx) -/

/-- The error message when the textarea yields no URL. -/
def adminEmptyMessage : String :=
  "最低1つのURLを入力してください。"

/-- JavaScript `s.split('\n')` on the character list: split at every
newline, keeping empty segments (splitting the empty string yields one
empty segment). -/
def splitOnNewline : List Char → List (List Char)
  | [] => [[]]
  | c :: cs =>
      if c = '\n' then [] :: splitOnNewline cs
      else
        match splitOnNewline cs with
        | [] => [[c]]
        | line :: rest => (c :: line) :: rest

/-- JavaScript `s.trim()` on the character list: drop leading and
trailing whitespace. -/
def trimChars (l : List Char) : List Char :=
  ((l.dropWhile Char.isWhitespace).reverse.dropWhile
    Char.isWhitespace).reverse

/-- JavaScript `s.split('\n')` at the string level. -/
def jsSplitNewline (s : String) : List String :=
  (splitOnNewline s.data).map String.mk

/-- JavaScript `s.trim()` at the string level. -/
def jsTrim (s : String) : String :=
  String.mk (trimChars s.data)

/-- `handleSubmit` of AdminPage, step 1
(`urls.split('\n').map(url => url.trim()).filter(url =>
url.length > 0)`): split the textarea content on newlines, trim every
line, and keep only the lines of positive length. -/
def urlsToCrawl (urls : String) : List String :=
  ((jsSplitNewline urls).map jsTrim).filter (fun url => url.length > 0)

/-- The line list as the claim words it: the input split on newlines,
each line trimmed, empty lines dropped. -/
def crawlLinesSpec (input : String) : List String :=
  ((jsSplitNewline input).map jsTrim).filter (fun url => url ≠ "")

/-- The outcome of an AdminPage submission: either an error message
with no network call, or a `triggerCrawl` request carrying the URL
list. -/
inductive AdminAction where
  | showErrorNoCall (message : String)
  | triggerCrawl (urls : List String)
deriving DecidableEq, Repr

/-- `handleSubmit` of AdminPage: if no URL remains after splitting,
trimming and filtering, show an error and issue no request; otherwise
call the `triggerCrawl` collaborator with exactly that list. -/
def adminHandleSubmit (urls : String) : AdminAction :=
  let urlsList := urlsToCrawl urls
  if urlsList.length = 0 then .showErrorNoCall adminEmptyMessage
  else .triggerCrawl urlsList

/-! ## Concrete fixtures used by counterexamples and witnesses -/

/-- A concrete paper with id 1. -/
def samplePaper : Paper :=
  { id := 1
    conferenceName := "USENIX Security"
    year := 2025
    title := "Sample Paper"
    url := none
    authors := none
    abstractText := none }

/-- A concrete HomePage state whose current candidate is
`samplePaper` (id 1), with nothing in flight and no request issued
yet. -/
def sampleHomeState : HomeState :=
  { paper := some samplePaper
    isCurrentLiked := false
    caches := { nextPaperValid := true, likedPapersValid := true }
    decision := .idle
    requests := [] }

/-- The session invariant of the spec: the `user` field is non-null
exactly when the session is authenticated. -/
def userMatchesAuth (s : AuthState) : Prop :=
  s.user.isSome = s.isAuthenticated

/-- A second concrete paper with id 2, still unclassified. -/
def samplePaper2 : Paper :=
  { id := 2
    conferenceName := "NDSS"
    year := 2026
    title := "Another Paper"
    url := none
    authors := none
    abstractText := none }

/-! # Theorems -/

/-- A string has positive length exactly when it is non-empty. -/
theorem string_length_pos_iff (s : String) : 0 < s.length ↔ s ≠ "" := by
  cases s with
  | mk data =>
    constructor
    · intro h heq
      rw [heq] at h
      simp [String.length] at h
    · intro h
      rcases data with _ | ⟨c, cs⟩
      · exact absurd rfl h
      · simp [String.length]

/-- Claim C10: for every textarea input string, the admin crawl
submission splits the input on newlines, trims each line, and drops
empty lines; if the resulting list is empty it shows an error and
issues no network call, and otherwise the `triggerCrawl` collaborator
receives exactly this list of trimmed non-empty lines in order. -/
theorem admin_crawl_split_trim_filter (input : String) :
    (urlsToCrawl input = [] →
      adminHandleSubmit input = .showErrorNoCall adminEmptyMessage)
    ∧ (urlsToCrawl input ≠ [] →
      adminHandleSubmit input = .triggerCrawl (urlsToCrawl input))
    ∧ urlsToCrawl input = crawlLinesSpec input
    ∧ (∀ url ∈ urlsToCrawl input, url ≠ "") := by
  refine ⟨?_, ?_, ?_, ?_⟩
  · intro h
    simp [adminHandleSubmit, h]
  · intro h
    simp [adminHandleSubmit, List.length_eq_zero, h]
  · unfold urlsToCrawl crawlLinesSpec
    exact List.filter_congr
      (fun a _ => decide_eq_decide.mpr (string_length_pos_iff a))
  · intro url hu
    have hlen : 0 < url.length :=
      of_decide_eq_true (List.mem_filter.mp hu).2
    exact (string_length_pos_iff url).mp hlen

/-- Witness for C10 at a concrete input with a blank line and
surrounding whitespace. -/
theorem admin_crawl_split_trim_filter_witness :
    urlsToCrawl "https://a.example\n\n https://b.example " ≠ [] ∧
    adminHandleSubmit "https://a.example\n\n https://b.example " =
      .triggerCrawl ["https://a.example", "https://b.example"] := by
  have h :=
    (admin_crawl_split_trim_filter
      "https://a.example\n\n https://b.example ").2.1 (by decide)
  refine ⟨by decide, ?_⟩
  rw [h]
  decide

/-- Claim C1 (counterexample): with current candidate `samplePaper`
(id 1), a decision submitted through the mutation for paper id 2 does
reach the paper-status network collaborator — the mutation function
issues the request unconditionally and there is no stale-candidate
failure. -/
theorem mismatched_decision_reaches_network :
    (mutate sampleHomeState ⟨2, .Read⟩).requests = [⟨2, .Read⟩]
    ∧ sampleHomeState.paper = some samplePaper
    ∧ samplePaper.id ≠ 2
    ∧ (mutate sampleHomeState ⟨2, .Read⟩).decision = .pending := by
  refine ⟨rfl, rfl, by decide, rfl⟩

/-- Claim C1 (amended): the only decision entry point, `handleRate`,
takes no paper id — it always submits the current candidate's own id,
and with no current candidate it does nothing at all (no request, and
no error either); the underlying mutation performs no stale-id
check. -/
theorem handleRate_submits_current_id (s : HomeState)
    (status : PaperStatus) :
    (s.paper = none → handleRate s status = s)
    ∧ (∀ p, s.paper = some p →
        (handleRate s status).requests = s.requests ++ [⟨p.id, status⟩]) := by
  constructor
  · intro h
    simp [handleRate, h]
  · intro p hp
    cases status <;> simp [handleRate, hp, mutate]

/-- Witness for the amended C1 at the concrete candidate state. -/
theorem handleRate_submits_current_id_witness :
    sampleHomeState.paper = some samplePaper ∧
    (handleRate sampleHomeState .Liked).requests = [⟨1, .Liked⟩] := by
  have h :=
    (handleRate_submits_current_id sampleHomeState .Liked).2 samplePaper rfl
  refine ⟨rfl, ?_⟩
  rw [h]
  decide

/-- Claim C4: a 404 collaborator response on the next-paper fetch is
never retried and renders the positive all-done completion state, not
an error banner. -/
theorem notFound_is_exhausted (failureCount : Nat) (body msg : String)
    (q : NextPaperQuery) (isMutating isCurrentLiked : Bool)
    (hload : q.isLoading = false)
    (herr : q.error = some (.responseError 404 body msg)) :
    nextPaperRetry failureCount (.responseError 404 body msg) = false
    ∧ renderHome q isMutating isCurrentLiked = .allDone
    ∧ ∀ m, renderHome q isMutating isCurrentLiked ≠ .errorBanner m := by
  have hrender : renderHome q isMutating isCurrentLiked = .allDone := by
    simp [renderHome, hload, herr, JsError.isResponseStatus]
  refine ⟨?_, hrender, ?_⟩
  · simp [nextPaperRetry, JsError.isResponseStatus]
  · intro m hcontra
    rw [hrender] at hcontra
    exact HomeRender.noConfusion hcontra

/-- Witness for C4 at a concrete settled 404 query state. -/
theorem notFound_is_exhausted_witness :
    nextPaperRetry 0 (.responseError 404 "" "Not Found") = false ∧
    renderHome ⟨none, false, true, some (.responseError 404 "" "Not Found")⟩
      false false = .allDone := by
  have h := notFound_is_exhausted 0 "" "Not Found"
    ⟨none, false, true, some (.responseError 404 "" "Not Found")⟩
    false false rfl rfl
  exact ⟨h.1, h.2.1⟩

/-- After a status has been recorded for a paper id, the next-paper
selection never returns a paper with that id. -/
theorem getNextPaper_after_set (db : List ServerPaper) (paperId : Nat)
    (status : PaperStatus) (q : Paper)
    (h : getNextPaper (setPaperStatus db paperId status) = some q) :
    q.id ≠ paperId := by
  induction db with
  | nil => simp [getNextPaper, setPaperStatus] at h
  | cons r rest ih =>
    by_cases hid : r.paper.id = paperId
    · apply ih
      simpa [getNextPaper, setPaperStatus, hid] using h
    · cases hst : r.status with
      | none =>
        have hq : q = r.paper := by
          simpa [getNextPaper, setPaperStatus, hid, hst] using h.symm
        rw [hq]
        exact hid
      | some st =>
        apply ih
        simpa [getNextPaper, setPaperStatus, hid, hst] using h

/-- Claim C3: on collaborator success, a `Read` decision invalidates
the next-candidate cache (and the refreshed fetch cannot repeat the
just-classified paper, since the server has recorded its status), a
`Liked` decision invalidates the liked-papers cache, and the decision
settles (`success`, the spec's `Settled`). -/
theorem decision_success_invalidation (s : HomeState) (v : MutationVars)
    (db : List ServerPaper) :
    (v.status = .Read →
      (onSuccess s v).caches.nextPaperValid = false
      ∧ ∀ q, getNextPaper (setPaperStatus db v.paperId v.status) = some q →
          q.id ≠ v.paperId)
    ∧ (v.status = .Liked →
      (onSuccess s v).caches.likedPapersValid = false)
    ∧ (onSuccess s v).decision = .success := by
  refine ⟨?_, ?_, ?_⟩
  · intro h
    refine ⟨by simp [onSuccess, h], ?_⟩
    intro q hq
    exact getNextPaper_after_set db v.paperId v.status q hq
  · intro h
    simp [onSuccess, h]
  · simp [onSuccess]

/-- Witness for C3: a `Read` decision on paper id 1 settles, clears
the next-paper cache, and the refetched next paper is paper 2, not
paper 1. -/
theorem decision_success_invalidation_witness :
    (onSuccess sampleHomeState ⟨1, .Read⟩).caches.nextPaperValid = false
    ∧ (onSuccess sampleHomeState ⟨1, .Read⟩).decision = .success
    ∧ getNextPaper
        (setPaperStatus [⟨samplePaper, none⟩, ⟨samplePaper2, none⟩] 1 .Read)
        = some samplePaper2
    ∧ samplePaper2.id ≠ 1 := by
  have h := decision_success_invalidation sampleHomeState ⟨1, .Read⟩
    [⟨samplePaper, none⟩, ⟨samplePaper2, none⟩]
  have hnext :
      getNextPaper
        (setPaperStatus [⟨samplePaper, none⟩, ⟨samplePaper2, none⟩] 1 .Read)
        = some samplePaper2 := by decide
  exact ⟨(h.1 rfl).1, h.2.2, hnext, (h.1 rfl).2 samplePaper2 hnext⟩

/-- Claim C6: a `Liked` press sets the local liked mark immediately
(while the network call is still pending), a failed `Liked` call rolls
it back, and nothing else clears an already-set mark except that very
rollback or the arrival of a new candidate — never the mere passage of
a pending call. -/
theorem liked_optimism (s : HomeState) (p : Paper) (v : MutationVars)
    (e : HomeEvent) :
    (s.paper = some p →
      (handleRate s .Liked).isCurrentLiked = true
      ∧ (handleRate s .Liked).decision = .pending)
    ∧ (v.status = .Liked → (onError s v).isCurrentLiked = false)
    ∧ (s.isCurrentLiked = true →
        (homeStep s e).isCurrentLiked = true
        ∨ (∃ w, e = .settleError w ∧ w.status = .Liked)
        ∨ (∃ pOpt, e = .load pOpt)) := by
  refine ⟨?_, ?_, ?_⟩
  · intro hp
    simp [handleRate, hp, mutate]
  · intro hv
    simp [onError, hv]
  · intro hl
    cases e with
    | rate status =>
      left
      cases hpap : s.paper with
      | none => simp [homeStep, handleRate, hpap, hl]
      | some pp =>
        cases status <;> simp [homeStep, handleRate, hpap, mutate, hl]
    | settleSuccess w =>
      left
      cases hw : w.status <;> simp [homeStep, onSuccess, hw, hl]
    | settleError w =>
      cases hw : w.status with
      | Liked => exact Or.inr (Or.inl ⟨w, rfl, hw⟩)
      | Read =>
        left
        simp [homeStep, onError, hw, hl]
    | load pOpt => exact Or.inr (Or.inr ⟨pOpt, rfl⟩)

/-- Witness for C6 at the concrete candidate state. -/
theorem liked_optimism_witness :
    sampleHomeState.paper = some samplePaper ∧
    (handleRate sampleHomeState .Liked).isCurrentLiked = true ∧
    (handleRate sampleHomeState .Liked).decision = .pending ∧
    (onError sampleHomeState ⟨1, .Liked⟩).isCurrentLiked = false := by
  have h := liked_optimism sampleHomeState samplePaper ⟨1, .Liked⟩
    (.load none)
  exact ⟨rfl, (h.1 rfl).1, (h.1 rfl).2, h.2.1 rfl⟩

/-- Claim C7: a 401 from the login collaborator makes `login` fail
with the invalid-credentials error in both AuthProvider variants, and
from an anonymous tokenless session the state stays anonymous with no
token persisted. -/
theorem login_unauthorized (s : AuthState) (payload : LoginPayload)
    (body msg : String) (getMeResult : Except JsError User)
    (hAuth : s.isAuthenticated = false) (hUser : s.user = none)
    (hTok : s.storedToken = none) :
    ((loginGetMe s payload (.error (.responseError 401 body msg))
        getMeResult).2 = .error (.plainError invalidCredentialsMessage)
    ∧ (loginGetMe s payload (.error (.responseError 401 body msg))
        getMeResult).1.isAuthenticated = false
    ∧ (loginGetMe s payload (.error (.responseError 401 body msg))
        getMeResult).1.user = none
    ∧ (loginGetMe s payload (.error (.responseError 401 body msg))
        getMeResult).1.storedToken = none)
    ∧ ((loginDummy s payload (.error (.responseError 401 body msg))).2
        = .error (.plainError invalidCredentialsMessage)
    ∧ (loginDummy s payload
        (.error (.responseError 401 body msg))).1.isAuthenticated = false
    ∧ (loginDummy s payload
        (.error (.responseError 401 body msg))).1.user = none
    ∧ (loginDummy s payload
        (.error (.responseError 401 body msg))).1.storedToken = none) := by
  refine ⟨⟨?_, ?_, ?_, ?_⟩, ⟨?_, ?_, ?_, ?_⟩⟩ <;>
    simp [loginGetMe, loginDummy, logout, loginCatch,
      JsError.isResponseStatus, hAuth, hUser, hTok]

/-- Witness for C7 at a concrete anonymous session and wrong
password. -/
theorem login_unauthorized_witness :
    (initialAuthState none).isAuthenticated = false ∧
    (loginGetMe (initialAuthState none) ⟨"alice", "wrong"⟩
        (.error (.responseError 401 "" "Unauthorized"))
        (.error (.plainError ""))).2
      = .error (.plainError invalidCredentialsMessage) ∧
    (loginDummy (initialAuthState none) ⟨"alice", "wrong"⟩
        (.error (.responseError 401 "" "Unauthorized"))).2
      = .error (.plainError invalidCredentialsMessage) := by
  have h := login_unauthorized (initialAuthState none) ⟨"alice", "wrong"⟩
    "" "Unauthorized" (.error (.plainError "")) rfl rfl rfl
  exact ⟨rfl, h.1.1, h.2.1⟩

/-- Every single session operation preserves the user-iff-authenticated
invariant. -/
theorem authStep_preserves_userMatchesAuth (s : AuthState) (e : AuthEvent)
    (h : userMatchesAuth s) : userMatchesAuth (authStep s e) := by
  cases e with
  | startupGetMe g =>
    cases hTok : s.storedToken with
    | none =>
      simpa [authStep, checkAuthStatus, hTok, userMatchesAuth] using h
    | some t =>
      cases g <;>
        simp [authStep, checkAuthStatus, hTok, userMatchesAuth, logout]
  | startupOfDummy =>
    cases hTok : s.storedToken with
    | none => simpa [authStep, startupDummy, hTok, userMatchesAuth] using h
    | some t => simp [authStep, startupDummy, hTok, userMatchesAuth]
  | loginViaGetMe payload loginResult g =>
    cases loginResult with
    | error e' => simp [authStep, loginGetMe, logout, userMatchesAuth]
    | ok tok =>
      cases g <;> simp [authStep, loginGetMe, logout, userMatchesAuth]
  | loginViaDummy payload loginResult =>
    cases loginResult with
    | error e' => simpa [authStep, loginDummy, userMatchesAuth] using h
    | ok tok =>
      simp [authStep, loginDummy, saveAuthData, userMatchesAuth]
  | registerCall r =>
    simpa [authStep, registerProvider, userMatchesAuth] using h
  | logoutCall => simp [authStep, logout, userMatchesAuth]

/-- The invariant holds after folding any event sequence over any
state satisfying it. -/
theorem foldl_userMatchesAuth (events : List AuthEvent) (s : AuthState)
    (h : userMatchesAuth s) : userMatchesAuth (events.foldl authStep s) := by
  induction events generalizing s with
  | nil => exact h
  | cons e rest ih =>
    exact ih (authStep s e) (authStep_preserves_userMatchesAuth s e h)

/-- Claim C9: in every session state reachable by any sequence of the
session operations (startup checks of either variant, logins of
either variant, register, logout) from any initial storage content,
the `user` field is non-null exactly when `isAuthenticated` is
true. -/
theorem session_user_iff_authenticated (storedToken : Option String)
    (events : List AuthEvent) :
    (runAuth storedToken events).user.isSome
      = (runAuth storedToken events).isAuthenticated :=
  foldl_userMatchesAuth events (initialAuthState storedToken) rfl

/-- Claim C2 (code evaluation at the failing input): in the dummy-user
AuthProvider variant, a successful login stores the token and
authenticates, but populates `user` with the hard-coded placeholder
record `{ userId := 1, username := payload.username }` — the function
consults no identity collaborator at all, so the stored identity is
the placeholder whatever the server-side identity is. -/
theorem loginDummy_placeholder_user :
    (loginDummy (initialAuthState none) ⟨"alice", "pw"⟩
        (.ok ⟨"tok123", "Bearer"⟩)).1.user = some ⟨1, "alice"⟩
    ∧ (loginDummy (initialAuthState none) ⟨"alice", "pw"⟩
        (.ok ⟨"tok123", "Bearer"⟩)).1.isAuthenticated = true
    ∧ (loginDummy (initialAuthState none) ⟨"alice", "pw"⟩
        (.ok ⟨"tok123", "Bearer"⟩)).1.storedToken = some "tok123"
    ∧ (loginDummy (initialAuthState none) ⟨"alice", "pw"⟩
        (.ok ⟨"tok123", "Bearer"⟩)).2 = .ok () :=
  ⟨rfl, rfl, rfl, rfl⟩

/-- Claim C5 (code evaluation at the failing input): the dummy-user
variant's startup effect authenticates any stored token without
consulting the identity collaborator — with the stale token
"expired-token" in storage it transitions to authenticated with a
placeholder user and the token is kept, where the claim requires a
validation failure to clear the token and resolve to anonymous. -/
theorem startupDummy_accepts_stale_token :
    (startupDummy (initialAuthState (some "expired-token"))).isAuthenticated
      = true
    ∧ (startupDummy (initialAuthState (some "expired-token"))).user
      = some ⟨1, "ログインユーザー"⟩
    ∧ (startupDummy (initialAuthState (some "expired-token"))).storedToken
      = some "expired-token"
    ∧ (startupDummy (initialAuthState (some "expired-token"))).isLoading
      = false :=
  ⟨rfl, rfl, rfl, rfl⟩

/-- Claim C8 (code evaluation at the failing input): when register
succeeds and the follow-up auto-login gets a 401, the composed
RegisterPage flow surfaces the generic invalid-credentials message —
not the distinct auto-login-failed message its own 401 branch was
written for (login rewraps the 401 ResponseError into a plain Error,
so that branch never matches a login failure); the session does stay
anonymous. -/
theorem register_then_login_401 :
    (registerPageSubmit (initialAuthState none) ⟨"bob", "x"⟩
        (.ok ⟨2, "bob"⟩) (.error (.responseError 401 "" "Unauthorized"))
        (.error (.plainError ""))).2
      = .showError invalidCredentialsMessage
    ∧ invalidCredentialsMessage ≠ autoLoginFailedMessage
    ∧ (registerPageSubmit (initialAuthState none) ⟨"bob", "x"⟩
        (.ok ⟨2, "bob"⟩) (.error (.responseError 401 "" "Unauthorized"))
        (.error (.plainError ""))).1.isAuthenticated = false
    ∧ (registerPageSubmit (initialAuthState none) ⟨"bob", "x"⟩
        (.ok ⟨2, "bob"⟩) (.error (.responseError 401 "" "Unauthorized"))
        (.error (.plainError ""))).1.user = none
    ∧ (registerPageSubmit (initialAuthState none) ⟨"bob", "x"⟩
        (.ok ⟨2, "bob"⟩) (.error (.responseError 401 "" "Unauthorized"))
        (.error (.plainError ""))).1.storedToken = none :=
  ⟨rfl, by decide, rfl, rfl, rfl⟩

end PaperDeck
